import Mathlib

/-
Shallow embedding of the qBittorrent bandwidth scheduler excerpt:
  src/base/bittorrent/speedprofile.h   (data model, JSON serialization)
  bandwidthscheduler.cpp               (BandwidthScheduler::start, isTimeForAlternative,
                                        getCurrentSpeedProfile, isDayMatch, onTimeout)

Modelling conventions:
  - QTime is modelled as an Int holding milliseconds since midnight (Qt stores the
    field mds); a valid time satisfies 0 <= t < 86400000, and the parse-failure
    sentinel (invalid/null QTime) is -1.  QTime comparison operators compare the
    millisecond counts, which on valid times is exactly Int comparison.
  - Scheduler::Days is declared in base/preferences.h, which is not part of the
    excerpt.  Modelled from the spec: a packed integer code over the closed set
    {EveryDay, Weekday, Weekend, Monday..Sunday}, with Monday..Sunday consecutive
    so that the source arithmetic dayOfWeek = code - (Monday - 1) maps
    Monday..Sunday to the ISO indices 1..7.  We use the concrete codes 0..9.
    An Int outside 0..9 models an unrecognized selector code.
  - Q_UNREACHABLE() (the default branch of the switch in isTimeForAlternative)
    asserts in debug builds and is undefined behavior in release builds; it is
    modelled as the undefined result none, so isTimeForAlternative returns
    Option Bool and every reachable defined path returns some.
  - The Preferences singleton reads and the wall clock are modelled as an
    environment record Env passed to the scheduler functions; the two signal
    memory cells m_lastAlternative / m_lastActiveProfile are a state record, and
    the Qt signal emissions become an explicit list of events.
-/

/- Modelled from the spec: the packed integer day-selector type Scheduler::Days
from base/preferences.h (not in the excerpt).  The selector is its plain integer
code (Int, so that arithmetic automation applies directly); the ten enumerators
are the named constants below. -/

def Scheduler.Days.EveryDay : Int := 0

def Scheduler.Days.Weekday : Int := 1

def Scheduler.Days.Weekend : Int := 2

def Scheduler.Days.Monday : Int := 3

def Scheduler.Days.Tuesday : Int := 4

def Scheduler.Days.Wednesday : Int := 5

def Scheduler.Days.Thursday : Int := 6

def Scheduler.Days.Friday : Int := 7

def Scheduler.Days.Saturday : Int := 8

def Scheduler.Days.Sunday : Int := 9

/-- A day-selector code is one of the ten Scheduler::Days enumerators. -/
def Scheduler.Days.recognized (d : Int) : Prop :=
  Scheduler.Days.EveryDay ≤ d ∧ d ≤ Scheduler.Days.Sunday

instance (d : Int) : Decidable (Scheduler.Days.recognized d) := by
  unfold Scheduler.Days.recognized
  infer_instance

/-- struct SpeedProfile of speedprofile.h: a named pair of rate limits. -/
structure SpeedSchedule.SpeedProfile where
  name : String
  downloadLimit : Int
  uploadLimit : Int
  deriving DecidableEq

/-- struct ScheduleEntry of speedprofile.h: a recurring day/time window bound to
a profile name.  Times are QTime values (milliseconds since midnight, -1 invalid). -/
structure SpeedSchedule.ScheduleEntry where
  startTime : Int
  endTime : Int
  days : Int
  profileName : String
  deriving DecidableEq

/-- SpeedProfile::isValid. -/
def SpeedSchedule.SpeedProfile.isValid (p : SpeedSchedule.SpeedProfile) : Bool :=
  !(p.name = ("")) && decide (p.downloadLimit ≥ -1) && decide (p.uploadLimit ≥ -1)

/-- QTime::isValid: milliseconds since midnight within one day. -/
def QTime.isValidTime (t : Int) : Bool :=
  decide (0 ≤ t) && decide (t < 86400000)

/-- ScheduleEntry::isValid. -/
def SpeedSchedule.ScheduleEntry.isValid (e : SpeedSchedule.ScheduleEntry) : Bool :=
  QTime.isValidTime e.startTime && QTime.isValidTime e.endTime && !(e.profileName = (""))

/-- BandwidthScheduler::isDayMatch of bandwidthscheduler.cpp: the switch over
the day-selector code.  The Monday..Sunday cases all run the shared body
computing dayOfWeek = code - (Monday - 1); the default branch returns false. -/
def BandwidthScheduler.isDayMatch (schedulerDays : Int) (currentDay : Int) : Bool :=
  if schedulerDays = Scheduler.Days.EveryDay then
    true
  else if schedulerDays = Scheduler.Days.Weekday then
    decide (currentDay ≥ 1 ∧ currentDay ≤ 5)
  else if schedulerDays = Scheduler.Days.Weekend then
    decide (currentDay = 6 ∨ currentDay = 7)
  else if Scheduler.Days.Monday ≤ schedulerDays ∧ schedulerDays ≤ Scheduler.Days.Sunday then
    decide (currentDay = schedulerDays - (Scheduler.Days.Monday - 1))
  else
    false

/-- The inner time-range test of BandwidthScheduler::getCurrentSpeedProfile:
normal closed interval when startTime <= endTime, wrap-around disjunction when
startTime > endTime. -/
def BandwidthScheduler.entryInTimeRange (entry : SpeedSchedule.ScheduleEntry) (now : Int) : Bool :=
  if entry.startTime ≤ entry.endTime then
    decide (now ≥ entry.startTime ∧ now ≤ entry.endTime)
  else
    decide (now ≥ entry.startTime ∨ now ≤ entry.endTime)

/-- BandwidthScheduler::getCurrentSpeedProfile: scan the entries in list order,
skip entries whose day selector does not match, return the profileName of the
first entry whose time range contains now, else the default profile. -/
def BandwidthScheduler.getCurrentSpeedProfile (now day : Int)
    (schedules : List SpeedSchedule.ScheduleEntry) (defaultProfile : String) : String :=
  match schedules with
  | [] => defaultProfile
  | entry :: rest =>
    if BandwidthScheduler.isDayMatch entry.days day then
      if BandwidthScheduler.entryInTimeRange entry now then
        entry.profileName
      else
        BandwidthScheduler.getCurrentSpeedProfile now day rest defaultProfile
    else
      BandwidthScheduler.getCurrentSpeedProfile now day rest defaultProfile

/-- BandwidthScheduler::isTimeForAlternative: swap start/end (setting the
alternative flag) when start > end, then, when now lies in the closed
normalized interval, negate the flag according to the day-selector switch.
The default branch of that switch is Q_UNREACHABLE(), modelled as none. -/
def BandwidthScheduler.isTimeForAlternative (start0 end0 now : Int)
    (schedulerDays : Int) (day : Int) : Option Bool :=
  let start := if start0 > end0 then end0 else start0
  let endT := if start0 > end0 then start0 else end0
  let alternative := decide (start0 > end0)
  if start ≤ now ∧ endT ≥ now then
    if schedulerDays = Scheduler.Days.EveryDay then
      some (!alternative)
    else if Scheduler.Days.Monday ≤ schedulerDays ∧ schedulerDays ≤ Scheduler.Days.Sunday then
      if day = schedulerDays - (Scheduler.Days.Monday - 1) then some (!alternative)
      else some alternative
    else if schedulerDays = Scheduler.Days.Weekday then
      if day ≥ 1 ∧ day ≤ 5 then some (!alternative) else some alternative
    else if schedulerDays = Scheduler.Days.Weekend then
      if day = 6 ∨ day = 7 then some (!alternative) else some alternative
    else
      none
  else
    some alternative

/-- The environment a scheduler evaluation reads: the Preferences getters and
the wall clock (time of day in milliseconds, ISO day of week 1..7). -/
structure Env where
  schedulerStartTime : Int
  schedulerEndTime : Int
  schedulerDays : Int
  scheduleEntries : List SpeedSchedule.ScheduleEntry
  defaultSpeedProfile : String
  now : Int
  day : Int
  deriving DecidableEq

/-- The BandwidthScheduler member state: the two last-announced memory cells
and whether the recurring timer is armed. -/
structure SchedulerState where
  m_lastAlternative : Bool
  m_lastActiveProfile : String
  timerActive : Bool
  deriving DecidableEq

/-- The Qt signals emitted by BandwidthScheduler. -/
inductive Event where
  | bandwidthLimitRequested (alternative : Bool)
  | speedProfileRequested (profileName : String)
  deriving DecidableEq

/-- Whether an evaluation result (undefined, or new state plus emitted events)
emits any speedProfileRequested event. -/
def resultEmitsProfileEvent (r : Option (SchedulerState × List Event)) : Bool :=
  match r with
  | some (_, evs) =>
    evs.any fun ev =>
      match ev with
      | Event.speedProfileRequested _ => true
      | _ => false
  | none => false

/-- BandwidthScheduler::start of bandwidthscheduler.cpp: store the legacy
alternative evaluation in m_lastAlternative, unconditionally emit
bandwidthLimitRequested, then arm the recurring 30 s timer. -/
def BandwidthScheduler.start (env : Env) (st : SchedulerState) :
    Option (SchedulerState × List Event) :=
  match BandwidthScheduler.isTimeForAlternative env.schedulerStartTime env.schedulerEndTime
      env.now env.schedulerDays env.day with
  | none => none
  | some alt =>
    some ({ st with m_lastAlternative := alt, timerActive := true },
          [Event.bandwidthLimitRequested alt])

/-- BandwidthScheduler::onTimeout: re-evaluate the legacy boolean and the
resolved profile; each is emitted (and its memory cell updated) only when it
differs from the last announced value for that same signal. -/
def BandwidthScheduler.onTimeout (env : Env) (st : SchedulerState) :
    Option (SchedulerState × List Event) :=
  match BandwidthScheduler.isTimeForAlternative env.schedulerStartTime env.schedulerEndTime
      env.now env.schedulerDays env.day with
  | none => none
  | some alternative =>
    let st1 := if alternative ≠ st.m_lastAlternative then
        { st with m_lastAlternative := alternative } else st
    let evs1 := if alternative ≠ st.m_lastAlternative then
        [Event.bandwidthLimitRequested alternative] else []
    let currentProfile := BandwidthScheduler.getCurrentSpeedProfile env.now env.day
        env.scheduleEntries env.defaultSpeedProfile
    if currentProfile ≠ st1.m_lastActiveProfile then
      some ({ st1 with m_lastActiveProfile := currentProfile },
            evs1 ++ [Event.speedProfileRequested currentProfile])
    else
      some (st1, evs1)

/-- A QJsonValue as produced/consumed by the serialization code in
speedprofile.h: a string, an (integral) number, or the undefined value that
QJsonObject::value returns for a missing key. -/
inductive QJsonValue where
  | jstring (s : String)
  | jnumber (n : Int)
  | jundefined
  deriving DecidableEq

/-- A QJsonObject: key/value pairs. -/
abbrev QJsonObject := List (String × QJsonValue)

/-- QJsonObject::value: the value stored under the key, else the undefined value. -/
def QJsonObject.value (obj : QJsonObject) (key : String) : QJsonValue :=
  match obj.find? (fun p => p.1 == key) with
  | some p => p.2
  | none => QJsonValue.jundefined

/-- QJsonValue::toString(): the held string, or a default-constructed (empty)
QString when the value is not a string. -/
def QJsonValue.asQString (v : QJsonValue) : String :=
  match v with
  | QJsonValue.jstring s => s
  | _ => ""

/-- QJsonValue::toInt(defaultValue): the held integral number, else the default. -/
def QJsonValue.toInt (v : QJsonValue) (defaultValue : Int) : Int :=
  match v with
  | QJsonValue.jnumber n => n
  | _ => defaultValue

/-- Two-digit zero-padded decimal rendering, as the HH and mm format sections do. -/
def pad2 (n : Nat) : String :=
  if n < 10 then ("0") ++ toString n else toString n

/-- Modelled from the spec: QTime::toString with format "HH:mm" (the persisted
form of entry times, section 6 of the spec): two-digit hour, a colon, two-digit
minute for a valid time; the empty string for an invalid time. -/
def QTime.toStringHHmm (t : Int) : String :=
  if QTime.isValidTime t then
    pad2 (t.toNat / 3600000) ++ (":") ++ pad2 ((t.toNat / 60000) % 60)
  else
    ""

/-- The numeric value of a decimal digit character, or none. -/
def digitVal (c : Char) : Option Nat :=
  if c.isDigit then some (c.toNat - 48) else none

/-- Modelled from the spec: QTime::fromString with format "HH:mm": parse a
two-digit hour, a colon and a two-digit minute into a time at second/millisecond
zero; any other shape or an out-of-range field yields the invalid time (-1),
the explicit invalid-time sentinel of section 6 of the spec. -/
def QTime.fromStringHHmm (s : String) : Int :=
  match s.toList with
  | [h1, h2, c, m1, m2] =>
    if c = ':' then
      match digitVal h1, digitVal h2, digitVal m1, digitVal m2 with
      | some a, some b, some x, some y =>
        if a * 10 + b ≤ 23 ∧ x * 10 + y ≤ 59 then
          (((a * 10 + b) * 60 + (x * 10 + y)) * 60000 : Int)
        else
          -1
      | _, _, _, _ => -1
    else
      -1
  | _ => -1

/-- SpeedProfile::toJsonObject of speedprofile.h. -/
def SpeedSchedule.SpeedProfile.toJsonObject (p : SpeedSchedule.SpeedProfile) : QJsonObject :=
  [(("name"), QJsonValue.jstring p.name),
   (("download"), QJsonValue.jnumber p.downloadLimit),
   (("upload"), QJsonValue.jnumber p.uploadLimit)]

/-- SpeedProfile::fromJsonObject of speedprofile.h. -/
def SpeedSchedule.SpeedProfile.fromJsonObject (obj : QJsonObject) : SpeedSchedule.SpeedProfile :=
  { name := (obj.value ("name")).asQString
  , downloadLimit := (obj.value ("download")).toInt (-1)
  , uploadLimit := (obj.value ("upload")).toInt (-1) }

/-- ScheduleEntry::toJsonObject of speedprofile.h: times are rendered through
the "HH:mm" format, the day selector is cast to its integer code. -/
def SpeedSchedule.ScheduleEntry.toJsonObject (e : SpeedSchedule.ScheduleEntry) : QJsonObject :=
  [(("start"), QJsonValue.jstring (QTime.toStringHHmm e.startTime)),
   (("end"), QJsonValue.jstring (QTime.toStringHHmm e.endTime)),
   (("days"), QJsonValue.jnumber e.days),
   (("profile"), QJsonValue.jstring e.profileName)]

/-- ScheduleEntry::fromJsonObject of speedprofile.h: times are parsed back
through the "HH:mm" format, the day selector is cast from its integer code
(with toInt default 0). -/
def SpeedSchedule.ScheduleEntry.fromJsonObject (obj : QJsonObject) : SpeedSchedule.ScheduleEntry :=
  { startTime := QTime.fromStringHHmm ((obj.value ("start")).asQString)
  , endTime := QTime.fromStringHHmm ((obj.value ("end")).asQString)
  , days := (obj.value ("days")).toInt 0
  , profileName := (obj.value ("profile")).asQString }

/- ------------------------------------------------------------------ -/
/- Theorems                                                            -/
/- ------------------------------------------------------------------ -/

/-- The ten Scheduler::Days codes as literals, for arithmetic reasoning. -/
theorem Scheduler.Days.code_values :
    Scheduler.Days.EveryDay = 0 ∧ Scheduler.Days.Weekday = 1 ∧
    Scheduler.Days.Weekend = 2 ∧ Scheduler.Days.Monday = 3 ∧
    Scheduler.Days.Tuesday = 4 ∧ Scheduler.Days.Wednesday = 5 ∧
    Scheduler.Days.Thursday = 6 ∧ Scheduler.Days.Friday = 7 ∧
    Scheduler.Days.Saturday = 8 ∧ Scheduler.Days.Sunday = 9 := by
  exact ⟨rfl, rfl, rfl, rfl, rfl, rfl, rfl, rfl, rfl, rfl⟩

/-- Parsing back a rendered two-digit-hour, colon, two-digit-minute string
recovers the minute-resolution time, for every in-range hour and minute. -/
theorem qtime_pad_roundtrip : ∀ h : Nat, h < 24 → ∀ m : Nat, m < 60 →
    QTime.fromStringHHmm (pad2 h ++ (":") ++ pad2 m) = ((h * 60 + m) * 60000 : Int) := by
  decide

/-- Rendering a valid minute-granularity time through the "HH:mm" format and
parsing it back is the identity. -/
theorem qtime_roundtrip (t : Int) (hv : QTime.isValidTime t = true) (hm : t % 60000 = 0) :
    QTime.fromStringHHmm (QTime.toStringHHmm t) = t := by
  simp only [QTime.isValidTime, Bool.and_eq_true, decide_eq_true_eq] at hv
  obtain ⟨h0, h1⟩ := hv
  obtain ⟨n, rfl⟩ : ∃ n : Nat, t = (n : Int) := ⟨t.toNat, (Int.toNat_of_nonneg h0).symm⟩
  have hn : n < 86400000 := by omega
  have hmod : n % 60000 = 0 := by omega
  have hval : QTime.isValidTime (n : Int) = true := by
    simp only [QTime.isValidTime, Bool.and_eq_true, decide_eq_true_eq]
    omega
  rw [QTime.toStringHHmm, if_pos hval, Int.toNat_natCast]
  rw [qtime_pad_roundtrip (n / 3600000) (by omega) (n / 60000 % 60) (by omega)]
  omega

/-- C1: for a schedule entry whose day selector matches the current day, the
time-range test is the inclusive closed interval startTime <= now <= endTime
when startTime <= endTime, and the wrap-around disjunction now >= startTime or
now <= endTime when startTime > endTime; the resolver selects the entry exactly
when this test holds. -/
theorem c1_time_range_inclusive (e : SpeedSchedule.ScheduleEntry) (now day : Int)
    (rest : List SpeedSchedule.ScheduleEntry) (d : String)
    (hday : BandwidthScheduler.isDayMatch e.days day = true) :
    (e.startTime ≤ e.endTime →
      (BandwidthScheduler.entryInTimeRange e now = true ↔
        e.startTime ≤ now ∧ now ≤ e.endTime)) ∧
    (e.startTime > e.endTime →
      (BandwidthScheduler.entryInTimeRange e now = true ↔
        now ≥ e.startTime ∨ now ≤ e.endTime)) ∧
    BandwidthScheduler.getCurrentSpeedProfile now day (e :: rest) d =
      (if BandwidthScheduler.entryInTimeRange e now then e.profileName
       else BandwidthScheduler.getCurrentSpeedProfile now day rest d) := by
  refine ⟨?_, ?_, ?_⟩
  · intro h
    simp only [BandwidthScheduler.entryInTimeRange, if_pos h, decide_eq_true_eq, ge_iff_le]
  · intro h
    have h2 : ¬ (e.startTime ≤ e.endTime) := by omega
    simp only [BandwidthScheduler.entryInTimeRange, if_neg h2, decide_eq_true_eq, ge_iff_le]
  · simp only [BandwidthScheduler.getCurrentSpeedProfile, if_pos hday]

/-- Witness for C1 at the spec's Work entry, Tuesday 09:00. -/
theorem c1_time_range_inclusive_witness :
    BandwidthScheduler.isDayMatch
      (SpeedSchedule.ScheduleEntry.mk 28800000 64800000 Scheduler.Days.Weekday ("Work")).days 2 = true ∧
    ((28800000 : Int) ≤ 64800000 →
      (BandwidthScheduler.entryInTimeRange
          (SpeedSchedule.ScheduleEntry.mk 28800000 64800000 Scheduler.Days.Weekday ("Work")) 32400000 = true ↔
        (28800000 : Int) ≤ 32400000 ∧ (32400000 : Int) ≤ 64800000)) ∧
    ((28800000 : Int) > 64800000 →
      (BandwidthScheduler.entryInTimeRange
          (SpeedSchedule.ScheduleEntry.mk 28800000 64800000 Scheduler.Days.Weekday ("Work")) 32400000 = true ↔
        (32400000 : Int) ≥ 28800000 ∨ (32400000 : Int) ≤ 64800000)) ∧
    BandwidthScheduler.getCurrentSpeedProfile 32400000 2
        [SpeedSchedule.ScheduleEntry.mk 28800000 64800000 Scheduler.Days.Weekday ("Work")] ("Normal") =
      (if BandwidthScheduler.entryInTimeRange
          (SpeedSchedule.ScheduleEntry.mk 28800000 64800000 Scheduler.Days.Weekday ("Work")) 32400000
       then (SpeedSchedule.ScheduleEntry.mk 28800000 64800000 Scheduler.Days.Weekday ("Work")).profileName
       else BandwidthScheduler.getCurrentSpeedProfile 32400000 2 [] ("Normal")) :=
  ⟨by decide,
   c1_time_range_inclusive
     (SpeedSchedule.ScheduleEntry.mk 28800000 64800000 Scheduler.Days.Weekday ("Work"))
     32400000 2 [] ("Normal") (by decide)⟩

/-- C2: the resolver scans entries in list order and returns the profileName of
the first entry passing both the day test and the time-range test: whenever
every entry of a prefix fails one of the two tests and the next entry passes
both, the result is that entry's profileName, whatever follows it. -/
theorem c2_first_match_wins (pre : List SpeedSchedule.ScheduleEntry)
    (e : SpeedSchedule.ScheduleEntry) (rest : List SpeedSchedule.ScheduleEntry)
    (now day : Int) (d : String)
    (hpre : pre.all (fun e2 => !(BandwidthScheduler.isDayMatch e2.days day) ||
              !(BandwidthScheduler.entryInTimeRange e2 now)) = true)
    (hday : BandwidthScheduler.isDayMatch e.days day = true)
    (htime : BandwidthScheduler.entryInTimeRange e now = true) :
    BandwidthScheduler.getCurrentSpeedProfile now day (pre ++ e :: rest) d = e.profileName := by
  induction pre with
  | nil =>
    simp only [List.nil_append, BandwidthScheduler.getCurrentSpeedProfile,
      if_pos hday, if_pos htime]
  | cons a tl ih =>
    rw [List.all_cons, Bool.and_eq_true] at hpre
    obtain ⟨ha, htl⟩ := hpre
    rw [Bool.or_eq_true, Bool.not_eq_true', Bool.not_eq_true'] at ha
    rw [List.cons_append]
    rcases ha with ha | ha
    · simp only [BandwidthScheduler.getCurrentSpeedProfile, ha, if_false, Bool.false_eq_true]
      exact ih htl
    · simp only [BandwidthScheduler.getCurrentSpeedProfile, ha]
      cases hm : BandwidthScheduler.isDayMatch a.days day
      · simp only [Bool.false_eq_true, if_false]
        exact ih htl
      · simp only [if_true, Bool.false_eq_true, if_false]
        exact ih htl

/-- Witness for C2: a both-matching Night entry after a non-matching Work
entry, Saturday 20:00; the Night entry wins. -/
theorem c2_first_match_wins_witness :
    ([SpeedSchedule.ScheduleEntry.mk 28800000 64800000 Scheduler.Days.Weekday ("Work")].all
      (fun e2 => !(BandwidthScheduler.isDayMatch e2.days 6) ||
        !(BandwidthScheduler.entryInTimeRange e2 72000000)) = true) ∧
    BandwidthScheduler.isDayMatch
      (SpeedSchedule.ScheduleEntry.mk 64800000 28800000 Scheduler.Days.EveryDay ("Night")).days 6 = true ∧
    BandwidthScheduler.entryInTimeRange
      (SpeedSchedule.ScheduleEntry.mk 64800000 28800000 Scheduler.Days.EveryDay ("Night")) 72000000 = true ∧
    BandwidthScheduler.getCurrentSpeedProfile 72000000 6
      ([SpeedSchedule.ScheduleEntry.mk 28800000 64800000 Scheduler.Days.Weekday ("Work")] ++
        (SpeedSchedule.ScheduleEntry.mk 64800000 28800000 Scheduler.Days.EveryDay ("Night")) ::
        [SpeedSchedule.ScheduleEntry.mk 0 86399999 Scheduler.Days.EveryDay ("Other")]) ("Normal") =
      (SpeedSchedule.ScheduleEntry.mk 64800000 28800000 Scheduler.Days.EveryDay ("Night")).profileName :=
  ⟨by decide, by decide, by decide,
   c2_first_match_wins
     [SpeedSchedule.ScheduleEntry.mk 28800000 64800000 Scheduler.Days.Weekday ("Work")]
     (SpeedSchedule.ScheduleEntry.mk 64800000 28800000 Scheduler.Days.EveryDay ("Night"))
     [SpeedSchedule.ScheduleEntry.mk 0 86399999 Scheduler.Days.EveryDay ("Other")]
     72000000 6 ("Normal") (by decide) (by decide) (by decide)⟩

/-- C3: when every entry fails the day test or the time-range test — in
particular for the empty entry list — the resolver returns exactly the default
profile, whatever string that is (empty included). -/
theorem c3_fallback_default (entries : List SpeedSchedule.ScheduleEntry)
    (now day : Int) (d : String)
    (h : entries.all (fun e => !(BandwidthScheduler.isDayMatch e.days day) ||
          !(BandwidthScheduler.entryInTimeRange e now)) = true) :
    BandwidthScheduler.getCurrentSpeedProfile now day entries d = d := by
  induction entries with
  | nil => rfl
  | cons a tl ih =>
    rw [List.all_cons, Bool.and_eq_true] at h
    obtain ⟨ha, htl⟩ := h
    rw [Bool.or_eq_true, Bool.not_eq_true', Bool.not_eq_true'] at ha
    rcases ha with ha | ha
    · simp only [BandwidthScheduler.getCurrentSpeedProfile, ha, if_false, Bool.false_eq_true]
      exact ih htl
    · simp only [BandwidthScheduler.getCurrentSpeedProfile, ha]
      cases hm : BandwidthScheduler.isDayMatch a.days day
      · simp only [Bool.false_eq_true, if_false]
        exact ih htl
      · simp only [if_true, Bool.false_eq_true, if_false]
        exact ih htl

/-- Witness for C3: a non-empty list with no matching entry and the empty
string as default profile. -/
theorem c3_fallback_default_witness :
    ([SpeedSchedule.ScheduleEntry.mk 28800000 64800000 Scheduler.Days.Weekend ("W")].all
      (fun e => !(BandwidthScheduler.isDayMatch e.days 1) ||
        !(BandwidthScheduler.entryInTimeRange e 43200000)) = true) ∧
    BandwidthScheduler.getCurrentSpeedProfile 43200000 1
      [SpeedSchedule.ScheduleEntry.mk 28800000 64800000 Scheduler.Days.Weekend ("W")] ("") = ("") :=
  ⟨by decide,
   c3_fallback_default
     [SpeedSchedule.ScheduleEntry.mk 28800000 64800000 Scheduler.Days.Weekend ("W")]
     43200000 1 ("") (by decide)⟩

/-- C4: for every current ISO day in 1..7, EveryDay always matches, Weekday
matches exactly the days 1..5, Weekend exactly 6 and 7, the named day
Monday + k (k in 0..6) exactly the ISO day 1 + k, and every selector code
outside the recognized set matches nothing. -/
theorem c4_day_selector_table (d k sel : Int)
    (hd : 1 ≤ d ∧ d ≤ 7) (hk : 0 ≤ k ∧ k ≤ 6)
    (hsel : ¬ Scheduler.Days.recognized sel) :
    BandwidthScheduler.isDayMatch Scheduler.Days.EveryDay d = true ∧
    BandwidthScheduler.isDayMatch Scheduler.Days.Weekday d = decide (d ≤ 5) ∧
    BandwidthScheduler.isDayMatch Scheduler.Days.Weekend d = decide (6 ≤ d) ∧
    BandwidthScheduler.isDayMatch (Scheduler.Days.Monday + k) d = decide (d = 1 + k) ∧
    BandwidthScheduler.isDayMatch sel d = false := by
  unfold Scheduler.Days.recognized at hsel
  unfold BandwidthScheduler.isDayMatch
  simp only [Scheduler.Days.EveryDay, Scheduler.Days.Weekday, Scheduler.Days.Weekend,
    Scheduler.Days.Monday, Scheduler.Days.Sunday] at hsel ⊢
  refine ⟨by norm_num, ?_, ?_, ?_, ?_⟩
  · norm_num
    omega
  · norm_num
    by_cases h6 : d = 6 <;> by_cases h7 : d = 7 <;> simp [h6, h7]
    omega
  · have h0 : ¬ ((3 : Int) + k = 0) := by omega
    have h1 : ¬ ((3 : Int) + k = 1) := by omega
    have h2 : ¬ ((3 : Int) + k = 2) := by omega
    have h3 : (3 : Int) ≤ 3 + k ∧ 3 + k ≤ 9 := by omega
    rw [if_neg h0, if_neg h1, if_neg h2, if_pos h3, decide_eq_decide]
    omega
  · have h0 : ¬ (sel = 0) := by omega
    have h1 : ¬ (sel = 1) := by omega
    have h2 : ¬ (sel = 2) := by omega
    have h3 : ¬ ((3 : Int) ≤ sel ∧ sel ≤ 9) := by omega
    rw [if_neg h0, if_neg h1, if_neg h2, if_neg h3]

/-- Witness for C4 at day 6 (Saturday), named-day offset k = 2 (Wednesday) and
the unrecognized selector code 10. -/
theorem c4_day_selector_table_witness :
    ((1 ≤ (6 : Int) ∧ (6 : Int) ≤ 7) ∧ (0 ≤ (2 : Int) ∧ (2 : Int) ≤ 6) ∧
      ¬ Scheduler.Days.recognized 10) ∧
    (BandwidthScheduler.isDayMatch Scheduler.Days.EveryDay 6 = true ∧
      BandwidthScheduler.isDayMatch Scheduler.Days.Weekday 6 = decide ((6 : Int) ≤ 5) ∧
      BandwidthScheduler.isDayMatch Scheduler.Days.Weekend 6 = decide ((6 : Int) ≤ 6) ∧
      BandwidthScheduler.isDayMatch (Scheduler.Days.Monday + 2) 6 = decide ((6 : Int) = 1 + 2) ∧
      BandwidthScheduler.isDayMatch 10 6 = false) :=
  ⟨⟨by decide, by decide, by decide⟩, c4_day_selector_table 6 2 10 (by decide) (by decide) (by decide)⟩

/-- C5 counterexample: at a concrete environment (legacy window 00:00-00:00,
EveryDay, clock 01:00, empty entry list) start() is defined, emits only the
legacy bandwidthLimitRequested announcement, and emits no speedProfileRequested
announcement — refuting the claim that start() unconditionally emits both
announcements before arming the timer. -/
theorem c5_start_no_profile_emission_cex :
    BandwidthScheduler.start
        (Env.mk 0 0 Scheduler.Days.EveryDay [] ("Normal") 3600000 1)
        (SchedulerState.mk false ("") false) =
      some (SchedulerState.mk false ("") true, [Event.bandwidthLimitRequested false]) ∧
    resultEmitsProfileEvent (BandwidthScheduler.start
        (Env.mk 0 0 Scheduler.Days.EveryDay [] ("Normal") 3600000 1)
        (SchedulerState.mk false ("") false)) = false := by
  constructor
  · rfl
  · rfl

/-- C5 amended: whenever the legacy evaluation is defined, start() stores it in
m_lastAlternative, unconditionally emits exactly the one legacy
bandwidthLimitRequested announcement (even when it equals the previous value),
and arms the timer; the resolved profile is neither computed nor announced and
m_lastActiveProfile is untouched. -/
theorem c5_start_amended (env : Env) (st : SchedulerState) (a : Bool)
    (h : BandwidthScheduler.isTimeForAlternative env.schedulerStartTime env.schedulerEndTime
        env.now env.schedulerDays env.day = some a) :
    BandwidthScheduler.start env st =
      some ({ st with m_lastAlternative := a, timerActive := true },
            [Event.bandwidthLimitRequested a]) := by
  unfold BandwidthScheduler.start
  rw [h]

/-- Witness for C5's amended statement at the counterexample environment, with
a previous state whose stored values already equal the new ones. -/
theorem c5_start_amended_witness :
    BandwidthScheduler.isTimeForAlternative 0 0 3600000 Scheduler.Days.EveryDay 1 = some false ∧
    BandwidthScheduler.start
        (Env.mk 0 0 Scheduler.Days.EveryDay [] ("Normal") 3600000 1)
        (SchedulerState.mk false ("Night") false) =
      some (SchedulerState.mk false ("Night") true, [Event.bandwidthLimitRequested false]) :=
  ⟨by decide,
   c5_start_amended (Env.mk 0 0 Scheduler.Days.EveryDay [] ("Normal") 3600000 1)
     (SchedulerState.mk false ("Night") false) false (by decide)⟩

/-- C6: on a tick (with the legacy evaluation defined), each of the two signals
emits exactly when its new value differs from the value last announced for that
same signal, the two memory cells are updated independently to the new values,
and a second tick under an unchanged environment emits nothing. -/
theorem c6_tick_change_detection (env : Env) (st : SchedulerState) (a : Bool)
    (h : BandwidthScheduler.isTimeForAlternative env.schedulerStartTime env.schedulerEndTime
        env.now env.schedulerDays env.day = some a) :
    BandwidthScheduler.onTimeout env st =
      some (SchedulerState.mk a
          (BandwidthScheduler.getCurrentSpeedProfile env.now env.day env.scheduleEntries
            env.defaultSpeedProfile) st.timerActive,
        (if a = st.m_lastAlternative then [] else [Event.bandwidthLimitRequested a]) ++
        (if BandwidthScheduler.getCurrentSpeedProfile env.now env.day env.scheduleEntries
              env.defaultSpeedProfile = st.m_lastActiveProfile then []
         else [Event.speedProfileRequested (BandwidthScheduler.getCurrentSpeedProfile env.now
                env.day env.scheduleEntries env.defaultSpeedProfile)])) ∧
    BandwidthScheduler.onTimeout env
        (SchedulerState.mk a
          (BandwidthScheduler.getCurrentSpeedProfile env.now env.day env.scheduleEntries
            env.defaultSpeedProfile) st.timerActive) =
      some (SchedulerState.mk a
          (BandwidthScheduler.getCurrentSpeedProfile env.now env.day env.scheduleEntries
            env.defaultSpeedProfile) st.timerActive, []) := by
  obtain ⟨la, lp, lt⟩ := st
  constructor
  · unfold BandwidthScheduler.onTimeout
    rw [h]
    by_cases h1 : a = la <;> by_cases h2 : BandwidthScheduler.getCurrentSpeedProfile env.now
        env.day env.scheduleEntries env.defaultSpeedProfile = lp <;>
      simp [h1, h2]
  · unfold BandwidthScheduler.onTimeout
    rw [h]
    simp

/-- Witness for C6: a tick whose legacy value flips and whose profile value is
new emits both events once; the follow-up tick emits nothing. -/
theorem c6_tick_change_detection_witness :
    BandwidthScheduler.isTimeForAlternative 0 86399999 43200000 Scheduler.Days.EveryDay 1 =
      some true ∧
    BandwidthScheduler.onTimeout
        (Env.mk 0 86399999 Scheduler.Days.EveryDay
          [SpeedSchedule.ScheduleEntry.mk 28800000 64800000 Scheduler.Days.EveryDay ("Work")]
          ("Normal") 43200000 1)
        (SchedulerState.mk false ("") true) =
      some (SchedulerState.mk true ("Work") true,
        (if true = false then [] else [Event.bandwidthLimitRequested true]) ++
        (if ("Work") = ("") then [] else [Event.speedProfileRequested ("Work")])) ∧
    BandwidthScheduler.onTimeout
        (Env.mk 0 86399999 Scheduler.Days.EveryDay
          [SpeedSchedule.ScheduleEntry.mk 28800000 64800000 Scheduler.Days.EveryDay ("Work")]
          ("Normal") 43200000 1)
        (SchedulerState.mk true ("Work") true) =
      some (SchedulerState.mk true ("Work") true, []) :=
  ⟨by decide,
   c6_tick_change_detection
     (Env.mk 0 86399999 Scheduler.Days.EveryDay
       [SpeedSchedule.ScheduleEntry.mk 28800000 64800000 Scheduler.Days.EveryDay ("Work")]
       ("Normal") 43200000 1)
     (SchedulerState.mk false ("") true) true (by decide)⟩

set_option linter.unreachableTactic false in
set_option linter.unusedTactic false in
set_option linter.unnecessarySeqFocus false in
/-- C7: for every recognized day-selector code, the legacy evaluator returns
the defined value (window wraps, that is start > end) XOR (now lies in the
closed normalized interval AND the day selector matches the current day). -/
theorem c7_alternative_xor (start0 end0 now sel day : Int)
    (hsel : Scheduler.Days.recognized sel) :
    BandwidthScheduler.isTimeForAlternative start0 end0 now sel day =
      some (xor (decide (start0 > end0))
        (decide (min start0 end0 ≤ now ∧ now ≤ max start0 end0) &&
          BandwidthScheduler.isDayMatch sel day)) := by
  unfold Scheduler.Days.recognized Scheduler.Days.EveryDay Scheduler.Days.Sunday at hsel
  obtain ⟨h0, h9⟩ := hsel
  unfold BandwidthScheduler.isTimeForAlternative BandwidthScheduler.isDayMatch
  simp only [Scheduler.Days.EveryDay, Scheduler.Days.Weekday, Scheduler.Days.Weekend,
    Scheduler.Days.Monday, Scheduler.Days.Sunday]
  by_cases hw : start0 > end0
  · have hmin : min start0 end0 = end0 := by omega
    have hmax : max start0 end0 = start0 := by omega
    rw [hmin, hmax]
    simp only [hw, if_true, decide_True, ge_iff_le]
    by_cases hin : end0 ≤ now ∧ now ≤ start0
    · rw [if_pos hin]
      split_ifs <;> first | omega | (simp_all <;> omega) | simp_all
    · rw [if_neg hin]
      split_ifs <;> first | omega | (simp_all <;> omega) | simp_all
  · have hmin : min start0 end0 = start0 := by omega
    have hmax : max start0 end0 = end0 := by omega
    rw [hmin, hmax]
    simp only [hw, if_false, decide_False, ge_iff_le]
    by_cases hin : start0 ≤ now ∧ now ≤ end0
    · rw [if_pos hin]
      split_ifs <;> first | omega | (simp_all <;> omega) | simp_all
    · rw [if_neg hin]
      split_ifs <;> first | omega | (simp_all <;> omega) | simp_all

/-- Witness for C7 at a wrapping window 23:00 to 01:00, Weekend selector,
Saturday midnight: the window wraps and now is inside it, so the two flips
cancel and the result is false. -/
theorem c7_alternative_xor_witness :
    Scheduler.Days.recognized Scheduler.Days.Weekend ∧
    BandwidthScheduler.isTimeForAlternative 82800000 3600000 0 Scheduler.Days.Weekend 6 =
      some (xor (decide ((82800000 : Int) > 3600000))
        (decide (min (82800000 : Int) 3600000 ≤ 0 ∧ (0 : Int) ≤ max (82800000 : Int) 3600000) &&
          BandwidthScheduler.isDayMatch Scheduler.Days.Weekend 6)) :=
  ⟨by decide, c7_alternative_xor 82800000 3600000 0 Scheduler.Days.Weekend 6 (by decide)⟩

/-- C8 counterexample: with the whole-day legacy window 00:00-23:59:59.999, the
unrecognized day-selector code 10 and the clock at noon, the legacy evaluator
reaches the Q_UNREACHABLE() default branch and has no defined result — refuting
the claim that evaluation never raises or aborts and silently treats an
unrecognized selector as non-matching for every input combination. -/
theorem c8_unreachable_cex :
    BandwidthScheduler.isTimeForAlternative 0 86399999 43200000 10 1 = none := by decide

/-- C8 amended: the multi-profile resolver is total — it always returns either
the default profile or the profileName of one of its entries — and isDayMatch
is silently false on every unrecognized selector code; the legacy evaluator has
a defined result whenever its selector is one of the ten recognized codes (for
every clock value now2, inside or outside the window), and also, for any
selector, whenever the clock now3 lies outside the normalized closed interval
(the Q_UNREACHABLE() default branch is reachable only for an unrecognized
selector with the clock inside the window). -/
theorem c8_no_abort_amended (now day sel s0 e0 now2 sel2 day2 now3 : Int)
    (entries : List SpeedSchedule.ScheduleEntry) (d : String)
    (hsel : ¬ Scheduler.Days.recognized sel)
    (hsel2 : Scheduler.Days.recognized sel2)
    (hout : ¬ (min s0 e0 ≤ now3 ∧ now3 ≤ max s0 e0)) :
    (BandwidthScheduler.getCurrentSpeedProfile now day entries d = d ∨
      ∃ e ∈ entries, BandwidthScheduler.getCurrentSpeedProfile now day entries d = e.profileName) ∧
    BandwidthScheduler.isDayMatch sel day = false ∧
    (BandwidthScheduler.isTimeForAlternative s0 e0 now2 sel2 day2).isSome = true ∧
    (BandwidthScheduler.isTimeForAlternative s0 e0 now3 sel day2).isSome = true := by
  unfold Scheduler.Days.recognized Scheduler.Days.EveryDay Scheduler.Days.Sunday at hsel hsel2
  refine ⟨?_, ?_, ?_, ?_⟩
  · induction entries with
    | nil => exact Or.inl rfl
    | cons a tl ih =>
      unfold BandwidthScheduler.getCurrentSpeedProfile
      by_cases h1 : BandwidthScheduler.isDayMatch a.days day
      · by_cases h2 : BandwidthScheduler.entryInTimeRange a now
        · rw [if_pos h1, if_pos h2]
          exact Or.inr ⟨a, List.mem_cons_self a tl, rfl⟩
        · rw [if_pos h1, if_neg h2]
          rcases ih with ih | ⟨e, he, hv⟩
          · exact Or.inl ih
          · exact Or.inr ⟨e, List.mem_cons_of_mem a he, hv⟩
      · rw [if_neg h1]
        rcases ih with ih | ⟨e, he, hv⟩
        · exact Or.inl ih
        · exact Or.inr ⟨e, List.mem_cons_of_mem a he, hv⟩
  · unfold BandwidthScheduler.isDayMatch
    simp only [Scheduler.Days.EveryDay, Scheduler.Days.Weekday, Scheduler.Days.Weekend,
      Scheduler.Days.Monday, Scheduler.Days.Sunday]
    have h0 : ¬ (sel = 0) := by omega
    have h1 : ¬ (sel = 1) := by omega
    have h2 : ¬ (sel = 2) := by omega
    have h3 : ¬ ((3 : Int) ≤ sel ∧ sel ≤ 9) := by omega
    rw [if_neg h0, if_neg h1, if_neg h2, if_neg h3]
  · unfold BandwidthScheduler.isTimeForAlternative
    simp only [Scheduler.Days.EveryDay, Scheduler.Days.Weekday, Scheduler.Days.Weekend,
      Scheduler.Days.Monday, Scheduler.Days.Sunday]
    split_ifs <;> first | rfl | omega
  · unfold BandwidthScheduler.isTimeForAlternative
    simp only [Scheduler.Days.EveryDay, Scheduler.Days.Weekday, Scheduler.Days.Weekend,
      Scheduler.Days.Monday, Scheduler.Days.Sunday]
    split_ifs <;> first | rfl | omega

/-- Witness for C8's amended statement: one matching entry, the unrecognized
selector 10, the recognized selector Weekday evaluated at noon — inside the
09:00 to 17:00 legacy window, where the switch actually runs — and the
unrecognized selector evaluated at 01:00, outside that window. -/
theorem c8_no_abort_amended_witness :
    (¬ Scheduler.Days.recognized 10) ∧ Scheduler.Days.recognized Scheduler.Days.Weekday ∧
    (¬ (min (32400000 : Int) 61200000 ≤ 3600000 ∧
        (3600000 : Int) ≤ max (32400000 : Int) 61200000)) ∧
    ((BandwidthScheduler.getCurrentSpeedProfile 3600000 2
        [SpeedSchedule.ScheduleEntry.mk 0 86399999 Scheduler.Days.EveryDay ("Night")] ("Normal") =
          ("Normal") ∨
      ∃ e ∈ [SpeedSchedule.ScheduleEntry.mk 0 86399999 Scheduler.Days.EveryDay ("Night")],
        BandwidthScheduler.getCurrentSpeedProfile 3600000 2
          [SpeedSchedule.ScheduleEntry.mk 0 86399999 Scheduler.Days.EveryDay ("Night")] ("Normal") =
            e.profileName) ∧
      BandwidthScheduler.isDayMatch 10 2 = false ∧
      (BandwidthScheduler.isTimeForAlternative 32400000 61200000 43200000
        Scheduler.Days.Weekday 5).isSome = true ∧
      (BandwidthScheduler.isTimeForAlternative 32400000 61200000 3600000 10 5).isSome = true) :=
  ⟨by decide, by decide, by decide,
   c8_no_abort_amended 3600000 2 10 32400000 61200000 43200000 Scheduler.Days.Weekday 5 3600000
     [SpeedSchedule.ScheduleEntry.mk 0 86399999 Scheduler.Days.EveryDay ("Night")] ("Normal")
     (by decide) (by decide) (by decide)⟩

/-- C9 counterexample: an EveryDay entry with startTime == endTime == 08:00 is
not selected at 12:00 — the resolver falls through to the default profile —
refuting the claim that such an entry is active at every time of day under the
wrap-around rule. -/
theorem c9_equal_times_cex :
    BandwidthScheduler.getCurrentSpeedProfile 43200000 1
        [SpeedSchedule.ScheduleEntry.mk 28800000 28800000 Scheduler.Days.EveryDay ("Night")]
        ("Normal") = ("Normal") ∧
    ("Normal") ≠ ("Night") := by
  constructor
  · rfl
  · decide

/-- C9 amended: an entry with startTime == endTime falls into the normal-range
branch (startTime <= endTime), so when its day selector matches it is active
exactly at the single instant now == startTime, not for the whole day. -/
theorem c9_equal_times_amended (e : SpeedSchedule.ScheduleEntry) (now day : Int)
    (rest : List SpeedSchedule.ScheduleEntry) (d : String)
    (hday : BandwidthScheduler.isDayMatch e.days day = true)
    (heq : e.startTime = e.endTime) :
    (BandwidthScheduler.entryInTimeRange e now = true ↔ now = e.startTime) ∧
    BandwidthScheduler.getCurrentSpeedProfile now day (e :: rest) d =
      (if now = e.startTime then e.profileName
       else BandwidthScheduler.getCurrentSpeedProfile now day rest d) := by
  have hle : e.startTime ≤ e.endTime := le_of_eq heq
  have hiff : BandwidthScheduler.entryInTimeRange e now = true ↔ now = e.startTime := by
    simp only [BandwidthScheduler.entryInTimeRange, if_pos hle, decide_eq_true_eq, ge_iff_le]
    omega
  refine ⟨hiff, ?_⟩
  simp only [BandwidthScheduler.getCurrentSpeedProfile, if_pos hday]
  by_cases hn : now = e.startTime
  · rw [if_pos hn, if_pos (hiff.mpr hn)]
  · rw [if_neg hn, if_neg ?_]
    intro hc
    exact hn (hiff.mp (by simpa using hc))

/-- Witness for C9's amended statement at the 08:00 == 08:00 entry: at 12:00 the
entry is skipped, and the resolver keeps scanning. -/
theorem c9_equal_times_amended_witness :
    BandwidthScheduler.isDayMatch
      (SpeedSchedule.ScheduleEntry.mk 28800000 28800000 Scheduler.Days.EveryDay ("Night")).days
      1 = true ∧
    ((28800000 : Int) = 28800000) ∧
    ((BandwidthScheduler.entryInTimeRange
        (SpeedSchedule.ScheduleEntry.mk 28800000 28800000 Scheduler.Days.EveryDay ("Night"))
        43200000 = true ↔ (43200000 : Int) = 28800000) ∧
      BandwidthScheduler.getCurrentSpeedProfile 43200000 1
          [SpeedSchedule.ScheduleEntry.mk 28800000 28800000 Scheduler.Days.EveryDay ("Night")]
          ("Normal") =
        (if (43200000 : Int) = 28800000 then ("Night")
         else BandwidthScheduler.getCurrentSpeedProfile 43200000 1 [] ("Normal"))) :=
  ⟨by decide, by decide,
   c9_equal_times_amended
     (SpeedSchedule.ScheduleEntry.mk 28800000 28800000 Scheduler.Days.EveryDay ("Night"))
     43200000 1 [] ("Normal") (by decide) (by decide)⟩

/-- C10: serialization round-trips — fromJsonObject after toJsonObject is the
identity on every SpeedProfile, and on every ScheduleEntry whose start and end
times are valid times of minute granularity (zero seconds and milliseconds, as
rendered by the "HH:mm" format). -/
theorem c10_json_roundtrip (p : SpeedSchedule.SpeedProfile) (e : SpeedSchedule.ScheduleEntry)
    (hsv : QTime.isValidTime e.startTime = true) (hsm : e.startTime % 60000 = 0)
    (hev : QTime.isValidTime e.endTime = true) (hem : e.endTime % 60000 = 0) :
    SpeedSchedule.SpeedProfile.fromJsonObject (SpeedSchedule.SpeedProfile.toJsonObject p) = p ∧
    SpeedSchedule.ScheduleEntry.fromJsonObject (SpeedSchedule.ScheduleEntry.toJsonObject e) = e := by
  constructor
  · rfl
  · have hunfold : SpeedSchedule.ScheduleEntry.fromJsonObject
        (SpeedSchedule.ScheduleEntry.toJsonObject e) =
        SpeedSchedule.ScheduleEntry.mk
          (QTime.fromStringHHmm (QTime.toStringHHmm e.startTime))
          (QTime.fromStringHHmm (QTime.toStringHHmm e.endTime))
          e.days e.profileName := rfl
    rw [hunfold, qtime_roundtrip e.startTime hsv hsm, qtime_roundtrip e.endTime hev hem]

/-- Witness for C10 at the profile (Night, 102400, -1) and the entry
08:30-23:00 on Weekday referencing it. -/
theorem c10_json_roundtrip_witness :
    (QTime.isValidTime 30600000 = true ∧ (30600000 : Int) % 60000 = 0 ∧
      QTime.isValidTime 82800000 = true ∧ (82800000 : Int) % 60000 = 0) ∧
    (SpeedSchedule.SpeedProfile.fromJsonObject
        (SpeedSchedule.SpeedProfile.toJsonObject
          (SpeedSchedule.SpeedProfile.mk ("Night") 102400 (-1))) =
        SpeedSchedule.SpeedProfile.mk ("Night") 102400 (-1) ∧
      SpeedSchedule.ScheduleEntry.fromJsonObject
        (SpeedSchedule.ScheduleEntry.toJsonObject
          (SpeedSchedule.ScheduleEntry.mk 30600000 82800000 Scheduler.Days.Weekday ("Night"))) =
        SpeedSchedule.ScheduleEntry.mk 30600000 82800000 Scheduler.Days.Weekday ("Night")) :=
  ⟨⟨by decide, by decide, by decide, by decide⟩,
   c10_json_roundtrip (SpeedSchedule.SpeedProfile.mk ("Night") 102400 (-1))
     (SpeedSchedule.ScheduleEntry.mk 30600000 82800000 Scheduler.Days.Weekday ("Night"))
     (by decide) (by decide) (by decide) (by decide)⟩
